import Mathlib

/-!
Verification of the chroma-core color-pattern detector (`ChromaCore.h`,
namespace `vision`).

The development shallowly embeds the detection core:
* floats become exact rationals (`ℚ`);
* binary masks become `Finset (ℤ × ℤ)` (the set of foreground pixels) or,
  for `HueRangeSet::BuildMask`, a per-pixel boolean function;
* the OpenCV measurement primitives (`contourArea`, `arcLength`,
  `minEnclosingCircle`, `boundingRect`, `findContours`) are external to the
  repository, so a contour enters the model as a `RawContour` record holding
  exactly the measurements the core reads from them;
* `cv::circle(..., FILLED)` is modelled as the integer disc
  `(x-cx)^2 + (y-cy)^2 ≤ r^2` clipped to the image grid;
* `std::sort` with a strict comparator `cmp` is modelled as `List.mergeSort`
  with the total preorder `fun a b => !cmp b a`, which produces one of the
  orders `std::sort` is permitted to produce.

Debug rendering (`DebugDrawConfig`, overlays, labels) is presentation-only
and is not modelled; no claim concerns it.
-/

namespace ChromaCore

/-- Clamp01 models `vision::detail::Clamp01`: clamp a value into `[0,1]`. -/
def Clamp01 (v : ℚ) : ℚ :=
  if v < 0 then 0
  else if 1 < v then 1
  else v

/-- SafeDiv models `vision::detail::SafeDiv`: returns `0` whenever the
denominator is `≤ 0`, else the quotient. -/
def SafeDiv (num den : ℚ) : ℚ :=
  if den ≤ 0 then 0 else num / den

/-- piQ models the `CV_PI` constant used by the source (a fixed positive
rational approximation of π; no claim depends on its exact value). -/
def piQ : ℚ := 3.1415926535897932384626433832795

/-- lroundQ models `std::lround`: round to nearest integer, halves away
from zero. -/
def lroundQ (x : ℚ) : ℤ :=
  if 0 ≤ x then ⌊x + 1/2⌋ else -⌊(-x) + 1/2⌋

/-- HueRange mirrors `vision::HueRange` (OpenCV hue space `0..179`). -/
structure HueRange where
  minHue : ℤ
  maxHue : ℤ
deriving DecidableEq

/-- ChannelRange mirrors `vision::ChannelRange` (saturation or value bounds). -/
structure ChannelRange where
  minValue : ℤ
  maxValue : ℤ
deriving DecidableEq

/-- ClampHue models `HueRangeSet::ClampHue`: clamp a hue into `[0,179]`. -/
def ClampHue (h : ℤ) : ℤ :=
  if h < 0 then 0 else if 179 < h then 179 else h

/-- AddHue models `HueRangeSet::Add`: both bounds are clamped on insertion. -/
def AddHue (ranges : List HueRange) (r : HueRange) : List HueRange :=
  ranges ++ [⟨ClampHue r.minHue, ClampHue r.maxHue⟩]

/-- ColorMaskConfig mirrors `vision::ColorMaskConfig`; the `HueRangeSet` is
its list of stored ranges. -/
structure ColorMaskConfig where
  hues : List HueRange
  satRange : ChannelRange
  valRange : ChannelRange

/-- MorphologyConfig mirrors `vision::MorphologyConfig`.  Morphology acts on
the center mask before contour extraction, which the model receives as
already-extracted `RawContour` data, so these counts are carried but unused. -/
structure MorphologyConfig where
  openIterations : ℤ
  closeIterations : ℤ
  dilateIterations : ℤ

/-- ShapeFilterConfig mirrors `vision::ShapeFilterConfig`. -/
structure ShapeFilterConfig where
  minArea : ℤ
  maxArea : ℤ
  minCircularity : ℚ
  minFillRatio : ℚ

/-- ContextRingConfig mirrors `vision::ContextRingConfig`. -/
structure ContextRingConfig where
  enabled : Bool
  innerRadiusPercent : ℤ
  outerRadiusPercent : ℤ
  supportColor : ColorMaskConfig
  excludeHues : List HueRange
  excludeSatRange : ChannelRange
  excludeValRange : ChannelRange
  minSupportRatio : ℚ

/-- ColorPatternConfig mirrors `vision::ColorPatternConfig` (debug-draw
options omitted: they only affect rendering). -/
structure ColorPatternConfig where
  centerColor : ColorMaskConfig
  centerMorph : MorphologyConfig
  shape : ShapeFilterConfig
  context : ContextRingConfig

/-- HSVPixel is one pixel of the `CV_8UC3` HSV frame. -/
structure HSVPixel where
  h : ℤ
  s : ℤ
  v : ℤ

/-- ClampChannel models `std::clamp(v, 0, 255)`. -/
def ClampChannel (v : ℤ) : ℤ :=
  if v < 0 then 0 else if 255 < v then 255 else v

/-- InRange3 models `cv::inRange` on one HSV pixel: every channel within its
inclusive bounds. -/
def InRange3 (hLo hHi sLo sHi vLo vHi : ℤ) (p : HSVPixel) : Bool :=
  decide (hLo ≤ p.h ∧ p.h ≤ hHi ∧ sLo ≤ p.s ∧ p.s ≤ sHi ∧ vLo ≤ p.v ∧ p.v ≤ vHi)

/-- BuildMask models `HueRangeSet::BuildMask` at one pixel: empty range set
gives background; saturation/value bounds are clamped to `[0,255]` and
swapped if reversed; each stored hue range contributes `cv::inRange` hits
(two, OR-ed, for a wraparound range), accumulated with `cv::bitwise_or`. -/
def BuildMask (ranges : List HueRange) (satMin satMax valMin valMax : ℤ)
    (p : HSVPixel) : Bool :=
  if ranges.isEmpty then false
  else
    let sLo := ClampChannel satMin
    let sHi := ClampChannel satMax
    let vLo := ClampChannel valMin
    let vHi := ClampChannel valMax
    let sLo' := if sHi < sLo then sHi else sLo
    let sHi' := if sHi < sLo then sLo else sHi
    let vLo' := if vHi < vLo then vHi else vLo
    let vHi' := if vHi < vLo then vLo else vHi
    ranges.foldl (fun acc r =>
      let part :=
        if r.minHue ≤ r.maxHue then
          InRange3 r.minHue r.maxHue sLo' sHi' vLo' vHi' p
        else
          InRange3 0 r.maxHue sLo' sHi' vLo' vHi' p ||
          InRange3 r.minHue 179 sLo' sHi' vLo' vHi' p
      acc || part) false

/-- HueInSpec renders the specification's reading of one `HueRange`: a plain
interval when `minHue ≤ maxHue`, else the wraparound union
`[0,maxHue] ∪ [minHue,179]`. -/
def HueInSpec (r : HueRange) (h : ℤ) : Bool :=
  if r.minHue ≤ r.maxHue then decide (r.minHue ≤ h ∧ h ≤ r.maxHue)
  else decide ((0 ≤ h ∧ h ≤ r.maxHue) ∨ (r.minHue ≤ h ∧ h ≤ 179))

/-- SpecMask renders the specification's wording of the mask builder: a pixel
is foreground iff the range set is non-empty, the hue lies in the union of
the ranges, and saturation and value lie in their (clamped, order-repaired)
channel ranges. -/
def SpecMask (ranges : List HueRange) (satMin satMax valMin valMax : ℤ)
    (p : HSVPixel) : Bool :=
  let sLo := ClampChannel satMin
  let sHi := ClampChannel satMax
  let vLo := ClampChannel valMin
  let vHi := ClampChannel valMax
  let sLo' := min sLo sHi
  let sHi' := max sLo sHi
  let vLo' := min vLo vHi
  let vHi' := max vLo vHi
  !ranges.isEmpty &&
    ranges.any (fun r => HueInSpec r p.h) &&
    decide (sLo' ≤ p.s ∧ p.s ≤ sHi') &&
    decide (vLo' ≤ p.v ∧ p.v ≤ vHi')

/-- ValidateRange models the `validateRange` lambda inside
`ColorPatternFinder::ValidateConfig`: bounds check first, then ordering,
returning the first failure message. -/
def ValidateRange (range : ChannelRange) (name : String) : Option String :=
  if range.minValue < 0 ∨ 255 < range.minValue ∨
      range.maxValue < 0 ∨ 255 < range.maxValue then
    some (name ++ " must be within [0,255].")
  else if range.maxValue < range.minValue then
    some (name ++ " must satisfy minValue <= maxValue.")
  else none

/-- ValidateConfig models `ColorPatternFinder::ValidateConfig`: `some msg` is
the first failing rule's message (the C++ returns `false` and writes `msg`),
`none` means the configuration is valid. -/
def ValidateConfig (cfg : ColorPatternConfig) : Option String :=
  (if cfg.centerColor.hues.isEmpty then some "centerColor.hues is empty." else none) <|>
  ValidateRange cfg.centerColor.satRange "centerColor.satRange" <|>
  ValidateRange cfg.centerColor.valRange "centerColor.valRange" <|>
  (if cfg.shape.minArea < 1 then some "shape.minArea must be >= 1." else none) <|>
  (if cfg.shape.maxArea < cfg.shape.minArea then
    some "shape.maxArea must be >= shape.minArea." else none) <|>
  (if cfg.shape.minCircularity < 0 ∨ 1 < cfg.shape.minCircularity then
    some "shape.minCircularity must be in [0,1]." else none) <|>
  (if cfg.shape.minFillRatio < 0 ∨ 1 < cfg.shape.minFillRatio then
    some "shape.minFillRatio must be in [0,1]." else none) <|>
  (if cfg.context.enabled then
    (if cfg.context.innerRadiusPercent < 1 ∨
        cfg.context.outerRadiusPercent ≤ cfg.context.innerRadiusPercent then
      some "context ring radius percents must satisfy: 1 <= inner < outer." else none) <|>
    (if cfg.context.minSupportRatio < 0 ∨ 1 < cfg.context.minSupportRatio then
      some "context.minSupportRatio must be in [0,1]." else none) <|>
    ValidateRange cfg.context.supportColor.satRange "context.supportColor.satRange" <|>
    ValidateRange cfg.context.supportColor.valRange "context.supportColor.valRange" <|>
    ValidateRange cfg.context.excludeSatRange "context.excludeSatRange" <|>
    ValidateRange cfg.context.excludeValRange "context.excludeValRange"
  else none)

/-- RangeWithinBounds states the spec rule "range within [0,255]". -/
def RangeWithinBounds (r : ChannelRange) : Bool :=
  decide (0 ≤ r.minValue ∧ r.minValue ≤ 255 ∧ 0 ≤ r.maxValue ∧ r.maxValue ≤ 255)

/-- RangeOrdered states the spec rule "min <= max". -/
def RangeOrdered (r : ChannelRange) : Bool :=
  decide (r.minValue ≤ r.maxValue)

/-- SpecRules is the specification's ordered rule list for configuration
validation, each rule paired with the message the implementation reports for
it: center hue set non-empty; center saturation/value ranges within bounds
and ordered; `minArea ≥ 1`; `maxArea ≥ minArea`; `minCircularity` and
`minFillRatio` in `[0,1]`; then, only when context is enabled,
`innerRadiusPercent ≥ 1`, `outerRadiusPercent > innerRadiusPercent` (both
reported with the single context-radius message), `minSupportRatio ∈ [0,1]`,
and the support/exclude saturation/value ranges. -/
def SpecRules (cfg : ColorPatternConfig) : List (Bool × String) :=
  [ (!cfg.centerColor.hues.isEmpty, "centerColor.hues is empty."),
    (RangeWithinBounds cfg.centerColor.satRange, "centerColor.satRange must be within [0,255]."),
    (RangeOrdered cfg.centerColor.satRange, "centerColor.satRange must satisfy minValue <= maxValue."),
    (RangeWithinBounds cfg.centerColor.valRange, "centerColor.valRange must be within [0,255]."),
    (RangeOrdered cfg.centerColor.valRange, "centerColor.valRange must satisfy minValue <= maxValue."),
    (decide (1 ≤ cfg.shape.minArea), "shape.minArea must be >= 1."),
    (decide (cfg.shape.minArea ≤ cfg.shape.maxArea), "shape.maxArea must be >= shape.minArea."),
    (decide (0 ≤ cfg.shape.minCircularity ∧ cfg.shape.minCircularity ≤ 1),
      "shape.minCircularity must be in [0,1]."),
    (decide (0 ≤ cfg.shape.minFillRatio ∧ cfg.shape.minFillRatio ≤ 1),
      "shape.minFillRatio must be in [0,1].") ] ++
  (if cfg.context.enabled then
    [ (decide (1 ≤ cfg.context.innerRadiusPercent),
        "context ring radius percents must satisfy: 1 <= inner < outer."),
      (decide (cfg.context.innerRadiusPercent < cfg.context.outerRadiusPercent),
        "context ring radius percents must satisfy: 1 <= inner < outer."),
      (decide (0 ≤ cfg.context.minSupportRatio ∧ cfg.context.minSupportRatio ≤ 1),
        "context.minSupportRatio must be in [0,1]."),
      (RangeWithinBounds cfg.context.supportColor.satRange,
        "context.supportColor.satRange must be within [0,255]."),
      (RangeOrdered cfg.context.supportColor.satRange,
        "context.supportColor.satRange must satisfy minValue <= maxValue."),
      (RangeWithinBounds cfg.context.supportColor.valRange,
        "context.supportColor.valRange must be within [0,255]."),
      (RangeOrdered cfg.context.supportColor.valRange,
        "context.supportColor.valRange must satisfy minValue <= maxValue."),
      (RangeWithinBounds cfg.context.excludeSatRange,
        "context.excludeSatRange must be within [0,255]."),
      (RangeOrdered cfg.context.excludeSatRange,
        "context.excludeSatRange must satisfy minValue <= maxValue."),
      (RangeWithinBounds cfg.context.excludeValRange,
        "context.excludeValRange must be within [0,255]."),
      (RangeOrdered cfg.context.excludeValRange,
        "context.excludeValRange must satisfy minValue <= maxValue.") ]
  else [])

/-- FirstFailing reports the message of the first rule in the list whose
check is false, or `none` when every rule holds. -/
def FirstFailing : List (Bool × String) → Option String
  | [] => none
  | (ok, msg) :: rest => if ok then FirstFailing rest else some msg

/-- RawContour carries the measurements `Find` reads off one external contour
through the external primitives: `cv::contourArea`, `cv::arcLength`,
`cv::minEnclosingCircle` (float center and radius) and `cv::boundingRect`. -/
structure RawContour where
  area : ℚ
  perimeter : ℚ
  cx : ℚ
  cy : ℚ
  radius : ℚ
  box : ℤ × ℤ × ℤ × ℤ

/-- DetectionMetrics mirrors `vision::DetectionMetrics`. -/
structure DetectionMetrics where
  areaPx : ℚ
  circularity : ℚ
  centerFillRatio : ℚ
  ringSupportRatio : ℚ
  score : ℚ
  passesArea : Bool
  passesCircularity : Bool
  passesCenterFill : Bool
  passesContext : Bool
  accepted : Bool

/-- ColorPatternDetection mirrors `vision::ColorPatternDetection` (the
contour point list itself is only carried for drawing and is not modelled). -/
structure ColorPatternDetection where
  boxPx : ℤ × ℤ × ℤ × ℤ
  centerPx : ℤ × ℤ
  radiusPx : ℚ
  metrics : DetectionMetrics

/-- ColorPatternRunResult mirrors `vision::ColorPatternRunResult` (debug
images omitted). -/
structure ColorPatternRunResult where
  detections : List ColorPatternDetection
  acceptedCentersPx : List (ℤ × ℤ)
  acceptedBoxesPx : List (ℤ × ℤ × ℤ × ℤ)
  rawCandidateCount : ℕ
  acceptedCount : ℕ
  acceptedRatio : ℚ
  sceneMaskCoverage : ℚ
  score : ℚ

/-- ComputeCircularity models `vision::detail::ComputeCircularity` on the
contour's measured area and perimeter: `0` for degenerate measurements, else
`4·π·area / perimeter²`. -/
def ComputeCircularity (area perimeter : ℚ) : ℚ :=
  if area ≤ 0 ∨ perimeter ≤ 0 then 0
  else (4 * piQ * area) / (perimeter * perimeter)

/-- DiscMask models `cv::circle(mask, c, r, 255, FILLED)` on a mask whose
pixel domain is `grid`: the integer disc of radius `r` about `c`, clipped to
the grid. -/
def DiscMask (grid : Finset (ℤ × ℤ)) (c : ℤ × ℤ) (r : ℤ) : Finset (ℤ × ℤ) :=
  grid.filter fun p => (p.1 - c.1) ^ 2 + (p.2 - c.2) ^ 2 ≤ r ^ 2

/-- RingCenter is the integer candidate center `Find` computes by rounding
the enclosing circle's float center. -/
def RingCenter (c : RawContour) : ℤ × ℤ :=
  (lroundQ c.cx, lroundQ c.cy)

/-- InnerRadius is the ring's inner cut radius from `Find`:
`max(1, lround(radius * innerRadiusPercent / 100))`. -/
def InnerRadius (cfg : ColorPatternConfig) (c : RawContour) : ℤ :=
  max 1 (lroundQ (c.radius * ((cfg.context.innerRadiusPercent : ℚ) / 100)))

/-- OuterRadius is the ring's outer radius from `Find`:
`max(inner + 1, lround(radius * outerRadiusPercent / 100))`. -/
def OuterRadius (cfg : ColorPatternConfig) (c : RawContour) : ℤ :=
  max (InnerRadius cfg c + 1)
    (lroundQ (c.radius * ((cfg.context.outerRadiusPercent : ℚ) / 100)))

/-- RingMask is the annulus `Find` paints: the outer disc filled with 255,
then the inner disc filled back with 0. -/
def RingMask (cfg : ColorPatternConfig) (grid : Finset (ℤ × ℤ))
    (c : RawContour) : Finset (ℤ × ℤ) :=
  DiscMask grid (RingCenter c) (OuterRadius cfg c) \
    DiscMask grid (RingCenter c) (InnerRadius cfg c)

/-- ValidRingMask models the exclusion step of `Find`: when an exclusion mask
was built (`excludeHues` non-empty), `bitwise_and` the ring with it and
`bitwise_xor` the hits back out of the ring; otherwise the ring unchanged. -/
def ValidRingMask (cfg : ColorPatternConfig) (grid : Finset (ℤ × ℤ))
    (excludeMask : Finset (ℤ × ℤ)) (c : RawContour) : Finset (ℤ × ℤ) :=
  let ringMask := RingMask cfg grid c
  if cfg.context.excludeHues.isEmpty then ringMask
  else symmDiff ringMask (ringMask ∩ excludeMask)

/-- ComputeMetrics models the per-candidate metric block of
`ColorPatternFinder::Find` (lines 474–518): area, clamped circularity, the
three shape pass flags, the context-ring support ratio and flag, the
composite score, and the final `accepted` conjunction. -/
def ComputeMetrics (cfg : ColorPatternConfig) (grid supportMask excludeMask : Finset (ℤ × ℤ))
    (c : RawContour) : DetectionMetrics :=
  let area := c.area
  let circularity := Clamp01 (ComputeCircularity c.area c.perimeter)
  let passesArea := decide ((cfg.shape.minArea : ℚ) ≤ area ∧ area ≤ (cfg.shape.maxArea : ℚ))
  let passesCircularity := decide (cfg.shape.minCircularity ≤ circularity)
  let circleArea := max 1 (piQ * c.radius * c.radius)
  let centerFillRatio := Clamp01 (SafeDiv area circleArea)
  let passesCenterFill := decide (cfg.shape.minFillRatio ≤ centerFillRatio)
  let validRing := ValidRingMask cfg grid excludeMask c
  let supportInRing := supportMask ∩ validRing
  let ringSupportRatio :=
    if cfg.context.enabled then
      Clamp01 (SafeDiv (supportInRing.card : ℚ) (validRing.card : ℚ))
    else 1
  let passesContext :=
    if cfg.context.enabled then decide (cfg.context.minSupportRatio ≤ ringSupportRatio)
    else true
  let shapeScore := circularity * 0.55 + centerFillRatio * 0.45
  let score :=
    if cfg.context.enabled then Clamp01 (shapeScore * 0.60 + ringSupportRatio * 0.40)
    else Clamp01 shapeScore
  { areaPx := area
    circularity := circularity
    centerFillRatio := centerFillRatio
    ringSupportRatio := ringSupportRatio
    score := score
    passesArea := passesArea
    passesCircularity := passesCircularity
    passesCenterFill := passesCenterFill
    passesContext := passesContext
    accepted := passesArea && passesCircularity && passesCenterFill && passesContext }

/-- MkDetection assembles the `ColorPatternDetection` `Find` pushes for one
surviving contour. -/
def MkDetection (cfg : ColorPatternConfig) (grid supportMask excludeMask : Finset (ℤ × ℤ))
    (c : RawContour) : ColorPatternDetection :=
  { boxPx := c.box
    centerPx := RingCenter c
    radiusPx := c.radius
    metrics := ComputeMetrics cfg grid supportMask excludeMask c }

/-- DetBefore models the strict `std::sort` comparator in `Find`: accepted
before rejected, then strictly greater score first. -/
def DetBefore (a b : ColorPatternDetection) : Bool :=
  if a.metrics.accepted ≠ b.metrics.accepted then
    a.metrics.accepted && !b.metrics.accepted
  else
    decide (b.metrics.score < a.metrics.score)

/-- SortDetections models the `std::sort` call: it produces a permutation of
the detections ordered so that a later element never has to precede an
earlier one under `DetBefore`. -/
def SortDetections (dets : List ColorPatternDetection) : List ColorPatternDetection :=
  dets.mergeSort fun a b => !DetBefore b a

/-- Find models `ColorPatternFinder::Find` downstream of the external image
primitives.  Inputs that the pipeline produces before the candidate loop are
taken as parameters: the pixel `grid` of the frame, the support and
exclusion masks (as foreground-pixel sets), the cleaned center mask's
foreground count and the frame dimensions (for `sceneMaskCoverage`), and the
list of external contours with their measurements. -/
def Find (cfg : ColorPatternConfig) (grid supportMask excludeMask : Finset (ℤ × ℤ))
    (centerMaskCount rows cols : ℕ) (contours : List RawContour) :
    ColorPatternRunResult :=
  let dets := (contours.filter fun c => !decide (c.area ≤ 0)).map
    (MkDetection cfg grid supportMask excludeMask)
  let sorted := SortDetections dets
  let accepted := sorted.filter fun d => d.metrics.accepted
  { detections := sorted
    acceptedCentersPx := accepted.map fun d => d.centerPx
    acceptedBoxesPx := accepted.map fun d => d.boxPx
    rawCandidateCount := contours.length
    acceptedCount := accepted.length
    acceptedRatio := SafeDiv (accepted.length : ℚ) ((max 1 contours.length : ℕ) : ℚ)
    sceneMaskCoverage := SafeDiv (centerMaskCount : ℚ) ((rows * cols : ℕ) : ℚ)
    score := (accepted.map fun d => d.metrics.score).foldl max 0 }

/-! ## Concrete instances used by the witnesses -/

/-- cfgOff is a valid configuration with the context ring disabled. -/
def cfgOff : ColorPatternConfig :=
  { centerColor := { hues := [⟨0, 10⟩], satRange := ⟨0, 255⟩, valRange := ⟨0, 255⟩ }
    centerMorph := ⟨0, 0, 0⟩
    shape := { minArea := 1, maxArea := 100, minCircularity := 0, minFillRatio := 0 }
    context :=
      { enabled := false
        innerRadiusPercent := 110
        outerRadiusPercent := 220
        supportColor := { hues := [⟨40, 80⟩], satRange := ⟨0, 255⟩, valRange := ⟨0, 255⟩ }
        excludeHues := []
        excludeSatRange := ⟨0, 255⟩
        excludeValRange := ⟨0, 255⟩
        minSupportRatio := 0 } }

/-- cfgOn is cfgOff with the context ring enabled. -/
def cfgOn : ColorPatternConfig :=
  { cfgOff with context := { cfgOff.context with enabled := true } }

/-- cfgBadArea is a configuration whose only violation is
`maxArea < minArea`. -/
def cfgBadArea : ColorPatternConfig :=
  { cfgOff with shape := { minArea := 5, maxArea := 2, minCircularity := 0, minFillRatio := 0 } }

/-- cfgBadRadius is a context-enabled configuration whose only violation is
`outerRadiusPercent ≤ innerRadiusPercent`. -/
def cfgBadRadius : ColorPatternConfig :=
  { cfgOff with context := { cfgOff.context with enabled := true, outerRadiusPercent := 100 } }

/-- cSample is a concrete non-degenerate contour measurement. -/
def cSample : RawContour :=
  { area := 3, perimeter := 7, cx := 5, cy := 5, radius := 2, box := (4, 4, 3, 3) }

/-- cZeroArea is a concrete degenerate contour with zero measured area. -/
def cZeroArea : RawContour :=
  { area := 0, perimeter := 2, cx := 1, cy := 1, radius := 0, box := (1, 1, 1, 1) }

/-- gridW is a concrete 13×13 pixel grid around the origin. -/
def gridW : Finset (ℤ × ℤ) := (Finset.Icc (-6 : ℤ) 6) ×ˢ (Finset.Icc (-6 : ℤ) 6)

/-- ringW is the concrete annulus `Find` builds for `cSample` on `gridW`
(inner cut radius 2, outer radius 4). -/
def ringW : Finset (ℤ × ℤ) :=
  DiscMask gridW (RingCenter cSample) 4 \ DiscMask gridW (RingCenter cSample) 2

/-- ring0 is the same annulus clipped to an empty grid, hence empty. -/
def ring0 : Finset (ℤ × ℤ) :=
  DiscMask ∅ (RingCenter cSample) 4 \ DiscMask ∅ (RingCenter cSample) 2

/-! ## Helper lemmas -/

theorem Clamp01_nonneg (v : ℚ) : 0 ≤ Clamp01 v := by
  unfold Clamp01; split_ifs <;> linarith

theorem Clamp01_le_one (v : ℚ) : Clamp01 v ≤ 1 := by
  unfold Clamp01; split_ifs <;> linarith

theorem SortDetections_nil : SortDetections [] = [] :=
  (List.mergeSort_perm [] _).eq_nil

theorem SortDetections_singleton (d : ColorPatternDetection) :
    SortDetections [d] = [d] :=
  List.perm_singleton.mp (List.mergeSort_perm [d] _)

theorem SortDetections_perm (dets : List ColorPatternDetection) :
    List.Perm (SortDetections dets) dets :=
  List.mergeSort_perm dets _

theorem Find_detections_eq (cfg : ColorPatternConfig)
    (grid supportMask excludeMask : Finset (ℤ × ℤ))
    (centerMaskCount rows cols : ℕ) (contours : List RawContour) :
    (Find cfg grid supportMask excludeMask centerMaskCount rows cols contours).detections =
      SortDetections ((contours.filter fun c => !decide (c.area ≤ 0)).map
        (MkDetection cfg grid supportMask excludeMask)) := rfl

theorem mem_Find_detections {cfg : ColorPatternConfig}
    {grid supportMask excludeMask : Finset (ℤ × ℤ)}
    {centerMaskCount rows cols : ℕ} {contours : List RawContour}
    {d : ColorPatternDetection}
    (hd : d ∈ (Find cfg grid supportMask excludeMask centerMaskCount rows cols contours).detections) :
    ∃ c ∈ contours, ¬(c.area ≤ 0) ∧ d = MkDetection cfg grid supportMask excludeMask c := by
  rw [Find_detections_eq] at hd
  have hd' := (SortDetections_perm _).mem_iff.mp hd
  rcases List.mem_map.mp hd' with ⟨c, hc, rfl⟩
  rcases List.mem_filter.mp hc with ⟨hcmem, hcarea⟩
  refine ⟨c, hcmem, ?_, rfl⟩
  simpa using hcarea

theorem ComputeMetrics_accepted (cfg : ColorPatternConfig)
    (grid supportMask excludeMask : Finset (ℤ × ℤ)) (c : RawContour) :
    (ComputeMetrics cfg grid supportMask excludeMask c).accepted =
      ((ComputeMetrics cfg grid supportMask excludeMask c).passesArea &&
       (ComputeMetrics cfg grid supportMask excludeMask c).passesCircularity &&
       (ComputeMetrics cfg grid supportMask excludeMask c).passesCenterFill &&
       (ComputeMetrics cfg grid supportMask excludeMask c).passesContext) := rfl

/-! ## Concrete fixtures for witnesses -/

theorem Find_single_det :
    (Find cfgOff ∅ ∅ ∅ 0 1 1 [cSample]).detections =
      [MkDetection cfgOff ∅ ∅ ∅ cSample] := by
  rw [Find_detections_eq]
  have hfil : (List.filter (fun c => !decide (c.area ≤ 0)) [cSample]) = [cSample] := by
    rw [List.filter_cons, if_pos]
    · rfl
    · simp [cSample]
  rw [hfil]
  exact SortDetections_singleton _

/-! ## Claims -/

/-- C1: for every detection produced by `Find`, the `accepted` flag equals
the logical AND of the four pass flags `passesArea`, `passesCircularity`,
`passesCenterFill` and `passesContext`, with no exceptions. -/
theorem accepted_eq_and_of_passes (cfg : ColorPatternConfig)
    (grid supportMask excludeMask : Finset (ℤ × ℤ))
    (centerMaskCount rows cols : ℕ) (contours : List RawContour) :
    ∀ d ∈ (Find cfg grid supportMask excludeMask centerMaskCount rows cols contours).detections,
      d.metrics.accepted =
        (d.metrics.passesArea && d.metrics.passesCircularity &&
         d.metrics.passesCenterFill && d.metrics.passesContext) := by
  intro d hd
  obtain ⟨c, _, _, rfl⟩ := mem_Find_detections hd
  exact ComputeMetrics_accepted cfg grid supportMask excludeMask c

/-- Witness for C1 at a concrete run with one candidate. -/
theorem accepted_eq_and_of_passes_witness :
    (MkDetection cfgOff ∅ ∅ ∅ cSample) ∈
        (Find cfgOff ∅ ∅ ∅ 0 1 1 [cSample]).detections ∧
      (MkDetection cfgOff ∅ ∅ ∅ cSample).metrics.accepted =
        ((MkDetection cfgOff ∅ ∅ ∅ cSample).metrics.passesArea &&
         (MkDetection cfgOff ∅ ∅ ∅ cSample).metrics.passesCircularity &&
         (MkDetection cfgOff ∅ ∅ ∅ cSample).metrics.passesCenterFill &&
         (MkDetection cfgOff ∅ ∅ ∅ cSample).metrics.passesContext) := by
  have hmem : (MkDetection cfgOff ∅ ∅ ∅ cSample) ∈
      (Find cfgOff ∅ ∅ ∅ 0 1 1 [cSample]).detections := by
    rw [Find_single_det]; exact List.mem_singleton_self _
  exact ⟨hmem, accepted_eq_and_of_passes cfgOff ∅ ∅ ∅ 0 1 1 [cSample] _ hmem⟩

/-- C9: for every candidate, when the context ring is disabled the support
ratio is exactly `1` and `passesContext` is `true`, regardless of the frame
content and of the support/exclude masks. -/
theorem context_disabled_forces_pass (cfg : ColorPatternConfig)
    (grid supportMask excludeMask : Finset (ℤ × ℤ))
    (centerMaskCount rows cols : ℕ) (contours : List RawContour)
    (hoff : cfg.context.enabled = false) :
    ∀ d ∈ (Find cfg grid supportMask excludeMask centerMaskCount rows cols contours).detections,
      d.metrics.ringSupportRatio = 1 ∧ d.metrics.passesContext = true := by
  intro d hd
  obtain ⟨c, _, _, rfl⟩ := mem_Find_detections hd
  constructor <;> simp [MkDetection, ComputeMetrics, hoff]

/-- Witness for C9 at a concrete disabled-context run with a nonempty
support mask. -/
theorem context_disabled_forces_pass_witness :
    cfgOff.context.enabled = false ∧
      (MkDetection cfgOff ∅ ∅ ∅ cSample) ∈
        (Find cfgOff ∅ ∅ ∅ 0 1 1 [cSample]).detections ∧
      (MkDetection cfgOff ∅ ∅ ∅ cSample).metrics.ringSupportRatio = 1 ∧
      (MkDetection cfgOff ∅ ∅ ∅ cSample).metrics.passesContext = true := by
  have hmem : (MkDetection cfgOff ∅ ∅ ∅ cSample) ∈
      (Find cfgOff ∅ ∅ ∅ 0 1 1 [cSample]).detections := by
    rw [Find_single_det]; exact List.mem_singleton_self _
  exact ⟨rfl, hmem,
    context_disabled_forces_pass cfgOff ∅ ∅ ∅ 0 1 1 [cSample] rfl _ hmem⟩

/-- C7: for every candidate the circularity and the center-fill ratio lie in
`[0,1]`, even for degenerate inputs: the circularity is `0` whenever the
measured area or perimeter is `≤ 0`, and the fill-ratio denominator
`max(1, π·radius²)` is never below `1`, so no division by zero or
out-of-range metric can occur. -/
theorem metrics_in_range_and_degenerate_safe (cfg : ColorPatternConfig)
    (grid supportMask excludeMask : Finset (ℤ × ℤ))
    (centerMaskCount rows cols : ℕ) (contours : List RawContour) :
    (∀ d ∈ (Find cfg grid supportMask excludeMask centerMaskCount rows cols contours).detections,
        0 ≤ d.metrics.circularity ∧ d.metrics.circularity ≤ 1 ∧
        0 ≤ d.metrics.centerFillRatio ∧ d.metrics.centerFillRatio ≤ 1) ∧
    (∀ area perimeter : ℚ, area ≤ 0 ∨ perimeter ≤ 0 →
        ComputeCircularity area perimeter = 0) ∧
    (∀ radius : ℚ, 1 ≤ max 1 (piQ * radius * radius)) := by
  refine ⟨?_, ?_, ?_⟩
  · intro d hd
    obtain ⟨c, _, _, rfl⟩ := mem_Find_detections hd
    exact ⟨Clamp01_nonneg _, Clamp01_le_one _, Clamp01_nonneg _, Clamp01_le_one _⟩
  · intro area perimeter h
    unfold ComputeCircularity
    rw [if_pos h]
  · intro radius
    exact le_max_left _ _

/-- Witness for C7 at a concrete run and a concrete degenerate measurement. -/
theorem metrics_in_range_and_degenerate_safe_witness :
    ((MkDetection cfgOff ∅ ∅ ∅ cSample) ∈
        (Find cfgOff ∅ ∅ ∅ 0 1 1 [cSample]).detections ∧
      0 ≤ (MkDetection cfgOff ∅ ∅ ∅ cSample).metrics.circularity ∧
      (MkDetection cfgOff ∅ ∅ ∅ cSample).metrics.circularity ≤ 1 ∧
      0 ≤ (MkDetection cfgOff ∅ ∅ ∅ cSample).metrics.centerFillRatio ∧
      (MkDetection cfgOff ∅ ∅ ∅ cSample).metrics.centerFillRatio ≤ 1) ∧
    (((0 : ℚ) ≤ 0 ∨ (2 : ℚ) ≤ 0) ∧ ComputeCircularity 0 2 = 0) := by
  have hmem : (MkDetection cfgOff ∅ ∅ ∅ cSample) ∈
      (Find cfgOff ∅ ∅ ∅ 0 1 1 [cSample]).detections := by
    rw [Find_single_det]; exact List.mem_singleton_self _
  refine ⟨⟨hmem, ?_⟩, Or.inl (by decide),
    (metrics_in_range_and_degenerate_safe cfgOff ∅ ∅ ∅ 0 1 1 [cSample]).2.1 0 2
      (Or.inl (by decide))⟩
  exact (metrics_in_range_and_degenerate_safe cfgOff ∅ ∅ ∅ 0 1 1 [cSample]).1 _ hmem

theorem SafeDiv_max_one (q : ℚ) (n : ℕ) :
    SafeDiv q (((max 1 n : ℕ)) : ℚ) = q / (((max 1 n : ℕ)) : ℚ) := by
  unfold SafeDiv
  rw [if_neg]
  push_neg
  exact_mod_cast Nat.lt_of_lt_of_le Nat.zero_lt_one (Nat.le_max_left 1 n)

/-- C8: for every `RunResult`, `acceptedRatio` equals `acceptedCount` divided
by `max(1, rawCandidateCount)`; with zero candidates the ratio is `0` and no
division error occurs. -/
theorem acceptedRatio_safe (cfg : ColorPatternConfig)
    (grid supportMask excludeMask : Finset (ℤ × ℤ))
    (centerMaskCount rows cols : ℕ) (contours : List RawContour) :
    (Find cfg grid supportMask excludeMask centerMaskCount rows cols contours).acceptedRatio =
      (((Find cfg grid supportMask excludeMask centerMaskCount rows cols contours).acceptedCount : ℚ) /
        (((max 1 (Find cfg grid supportMask excludeMask centerMaskCount rows cols contours).rawCandidateCount : ℕ)) : ℚ)) ∧
    (contours = [] →
      (Find cfg grid supportMask excludeMask centerMaskCount rows cols contours).acceptedRatio = 0) := by
  constructor
  · exact SafeDiv_max_one _ _
  · rintro rfl
    norm_num [Find, SortDetections_nil, SafeDiv]

/-- Witness for C8 at a run with zero candidates. -/
theorem acceptedRatio_safe_witness :
    ([] : List RawContour) = [] ∧
      (Find cfgOff ∅ ∅ ∅ 0 1 1 []).acceptedRatio = 0 := by
  exact ⟨rfl, (acceptedRatio_safe cfgOff ∅ ∅ ∅ 0 1 1 []).2 rfl⟩

theorem symmDiff_inter_eq_sdiff (s t : Finset (ℤ × ℤ)) :
    symmDiff s (s ∩ t) = s \ t := by
  ext p
  simp [Finset.mem_symmDiff]
  tauto

/-- C2: for every candidate with context enabled, the annulus has outer
radius `max(inner+1, round(radius·outerPercent/100))` and inner cut radius
`max(1, round(radius·innerPercent/100))`; subtracting the exclusion pixels
via the code's bitwise XOR against the exclusion-AND-annulus subset equals
set subtraction; `ringSupportRatio = clamp01(supportPx / validPx)`, is `0`
when the valid annulus is empty, and `passesContext` holds iff the ratio is
at least `minSupportRatio`. -/
theorem context_ring_semantics (cfg : ColorPatternConfig)
    (grid supportMask excludeMask : Finset (ℤ × ℤ)) (c : RawContour)
    (hon : cfg.context.enabled = true)
    (inner outer : ℤ) (ring valid : Finset (ℤ × ℤ))
    (hinner : inner = max 1 (lroundQ (c.radius * ((cfg.context.innerRadiusPercent : ℚ) / 100))))
    (houter : outer = max (inner + 1) (lroundQ (c.radius * ((cfg.context.outerRadiusPercent : ℚ) / 100))))
    (hring : ring = DiscMask grid (RingCenter c) outer \ DiscMask grid (RingCenter c) inner)
    (hvalid : valid = if cfg.context.excludeHues.isEmpty then ring else ring \ excludeMask) :
    (ComputeMetrics cfg grid supportMask excludeMask c).ringSupportRatio =
        Clamp01 (SafeDiv ((supportMask ∩ valid).card : ℚ) ((valid.card : ℚ))) ∧
    (valid = ∅ → (ComputeMetrics cfg grid supportMask excludeMask c).ringSupportRatio = 0) ∧
    ((ComputeMetrics cfg grid supportMask excludeMask c).passesContext = true ↔
      cfg.context.minSupportRatio ≤ (ComputeMetrics cfg grid supportMask excludeMask c).ringSupportRatio) := by
  subst hvalid hring houter hinner
  have hv : ValidRingMask cfg grid excludeMask c =
      (if cfg.context.excludeHues.isEmpty then
        DiscMask grid (RingCenter c) (OuterRadius cfg c) \
          DiscMask grid (RingCenter c) (InnerRadius cfg c)
      else
        (DiscMask grid (RingCenter c) (OuterRadius cfg c) \
          DiscMask grid (RingCenter c) (InnerRadius cfg c)) \ excludeMask) := by
    unfold ValidRingMask RingMask
    split_ifs
    · rfl
    · exact symmDiff_inter_eq_sdiff _ _
  refine ⟨?_, ?_, ?_⟩
  · simp only [ComputeMetrics, hon, if_true]
    rw [hv]
    rfl
  · intro hempty
    simp only [ComputeMetrics, hon, if_true]
    rw [hv]
    rw [show (if cfg.context.excludeHues.isEmpty then
        DiscMask grid (RingCenter c) (OuterRadius cfg c) \
          DiscMask grid (RingCenter c) (InnerRadius cfg c)
      else
        (DiscMask grid (RingCenter c) (OuterRadius cfg c) \
          DiscMask grid (RingCenter c) (InnerRadius cfg c)) \ excludeMask) = ∅ from hempty]
    norm_num [SafeDiv, Clamp01]
  · simp only [ComputeMetrics, hon, if_true]
    simp [decide_eq_true_iff]

/-- Witness for C2: a concrete enabled-context candidate (radius 2, ring
percents 110/220 give inner 2 and outer 4), plus the empty-annulus case. -/
theorem context_ring_semantics_witness :
    cfgOn.context.enabled = true ∧
    (2 : ℤ) = max 1 (lroundQ (cSample.radius * ((cfgOn.context.innerRadiusPercent : ℚ) / 100))) ∧
    (4 : ℤ) = max ((2 : ℤ) + 1) (lroundQ (cSample.radius * ((cfgOn.context.outerRadiusPercent : ℚ) / 100))) ∧
    (ComputeMetrics cfgOn gridW ∅ ∅ cSample).ringSupportRatio =
      Clamp01 (SafeDiv (((∅ : Finset (ℤ × ℤ)) ∩ ringW).card : ℚ) ((ringW.card : ℚ))) ∧
    ((ComputeMetrics cfgOn gridW ∅ ∅ cSample).passesContext = true ↔
      cfgOn.context.minSupportRatio ≤ (ComputeMetrics cfgOn gridW ∅ ∅ cSample).ringSupportRatio) ∧
    (ComputeMetrics cfgOn ∅ ∅ ∅ cSample).ringSupportRatio = 0 := by
  have h2 : (2 : ℤ) = max 1 (lroundQ (cSample.radius * ((cfgOn.context.innerRadiusPercent : ℚ) / 100))) := by
    norm_num [cSample, cfgOn, cfgOff, lroundQ]
  have h4 : (4 : ℤ) = max ((2 : ℤ) + 1) (lroundQ (cSample.radius * ((cfgOn.context.outerRadiusPercent : ℚ) / 100))) := by
    norm_num [cSample, cfgOn, cfgOff, lroundQ]
  have hval : ringW = if cfgOn.context.excludeHues.isEmpty then ringW else ringW \ (∅ : Finset (ℤ × ℤ)) := rfl
  have hmain := context_ring_semantics cfgOn gridW ∅ ∅ cSample rfl 2 4 ringW ringW h2 h4 rfl hval
  have hval0 : ring0 = if cfgOn.context.excludeHues.isEmpty then ring0 else ring0 \ (∅ : Finset (ℤ × ℤ)) := rfl
  have hmain0 := context_ring_semantics cfgOn ∅ ∅ ∅ cSample rfl 2 4 ring0 ring0 h2 h4 rfl hval0
  have hempty : ring0 = ∅ := by
    simp [ring0, DiscMask]
  exact ⟨rfl, h2, h4, hmain.1, hmain.2.2, hmain0.2.1 hempty⟩

theorem foldl_max_zero_eq (l : List ℚ) (h : ∀ x ∈ l, 0 ≤ x) :
    l.foldl max 0 = l.max?.getD 0 := by
  cases l with
  | nil => rfl
  | cons x xs =>
    have h0 : max 0 x = x := max_eq_right (h x (List.mem_cons_self x xs))
    show List.foldl max (max 0 x) xs = (some (xs.foldl max x)).getD 0
    rw [h0, Option.getD_some]

/-- C3: for every candidate, the composite score is
`clamp01(0.60·(0.55·circularity + 0.45·centerFillRatio) + 0.40·ringSupportRatio)`
when context is enabled and `clamp01(0.55·circularity + 0.45·centerFillRatio)`
when disabled; the `RunResult` overall score is the maximum accepted score,
defaulting to `0` when no detection is accepted. -/
theorem score_formula_and_overall (cfg : ColorPatternConfig)
    (grid supportMask excludeMask : Finset (ℤ × ℤ))
    (centerMaskCount rows cols : ℕ) (contours : List RawContour) :
    (∀ d ∈ (Find cfg grid supportMask excludeMask centerMaskCount rows cols contours).detections,
        d.metrics.score =
          if cfg.context.enabled then
            Clamp01 (0.60 * (0.55 * d.metrics.circularity + 0.45 * d.metrics.centerFillRatio) +
              0.40 * d.metrics.ringSupportRatio)
          else
            Clamp01 (0.55 * d.metrics.circularity + 0.45 * d.metrics.centerFillRatio)) ∧
    (Find cfg grid supportMask excludeMask centerMaskCount rows cols contours).score =
      ((((Find cfg grid supportMask excludeMask centerMaskCount rows cols contours).detections.filter
          fun d => d.metrics.accepted).map fun d => d.metrics.score).max?.getD 0) := by
  constructor
  · intro d hd
    obtain ⟨c, _, _, rfl⟩ := mem_Find_detections hd
    cases hctx : cfg.context.enabled <;>
      · simp only [MkDetection, ComputeMetrics, hctx, if_true, if_false,
          Bool.false_eq_true, ite_false, ite_true]
        congr 1
        ring
  · have hnn : ∀ x ∈ ((((Find cfg grid supportMask excludeMask centerMaskCount rows cols
        contours).detections.filter fun d => d.metrics.accepted).map
          fun d => d.metrics.score)), 0 ≤ x := by
      intro x hx
      rcases List.mem_map.mp hx with ⟨d, hd, rfl⟩
      have hd' := (List.mem_filter.mp hd).1
      obtain ⟨c, _, _, rfl⟩ := mem_Find_detections hd'
      cases hctx : cfg.context.enabled <;>
        simp [MkDetection, ComputeMetrics, hctx, Clamp01_nonneg]
    exact foldl_max_zero_eq _ hnn

/-- Witness for C3 at a concrete run with one candidate. -/
theorem score_formula_and_overall_witness :
    (MkDetection cfgOff ∅ ∅ ∅ cSample) ∈
        (Find cfgOff ∅ ∅ ∅ 0 1 1 [cSample]).detections ∧
      (MkDetection cfgOff ∅ ∅ ∅ cSample).metrics.score =
        (if cfgOff.context.enabled then
          Clamp01 (0.60 * (0.55 * (MkDetection cfgOff ∅ ∅ ∅ cSample).metrics.circularity +
              0.45 * (MkDetection cfgOff ∅ ∅ ∅ cSample).metrics.centerFillRatio) +
            0.40 * (MkDetection cfgOff ∅ ∅ ∅ cSample).metrics.ringSupportRatio)
        else
          Clamp01 (0.55 * (MkDetection cfgOff ∅ ∅ ∅ cSample).metrics.circularity +
            0.45 * (MkDetection cfgOff ∅ ∅ ∅ cSample).metrics.centerFillRatio)) ∧
      (Find cfgOff ∅ ∅ ∅ 0 1 1 [cSample]).score =
        ((((Find cfgOff ∅ ∅ ∅ 0 1 1 [cSample]).detections.filter
            fun d => d.metrics.accepted).map fun d => d.metrics.score).max?.getD 0) := by
  have hmem : (MkDetection cfgOff ∅ ∅ ∅ cSample) ∈
      (Find cfgOff ∅ ∅ ∅ 0 1 1 [cSample]).detections := by
    rw [Find_single_det]; exact List.mem_singleton_self _
  exact ⟨hmem,
    (score_formula_and_overall cfgOff ∅ ∅ ∅ 0 1 1 [cSample]).1 _ hmem,
    (score_formula_and_overall cfgOff ∅ ∅ ∅ 0 1 1 [cSample]).2⟩

theorem detLe_iff (a b : ColorPatternDetection) :
    (!DetBefore b a) = true ↔
      ((b.metrics.accepted = true → a.metrics.accepted = true) ∧
       (a.metrics.accepted = b.metrics.accepted → b.metrics.score ≤ a.metrics.score)) := by
  cases ha : a.metrics.accepted <;> cases hb : b.metrics.accepted <;>
    simp [DetBefore, ha, hb, not_lt]

theorem detLe_trans (a b c : ColorPatternDetection) :
    (!DetBefore b a) = true → (!DetBefore c b) = true → (!DetBefore c a) = true := by
  cases ha : a.metrics.accepted <;> cases hb : b.metrics.accepted <;>
      cases hc : c.metrics.accepted <;>
    simp [DetBefore, ha, hb, hc, not_lt] <;> intros <;> linarith

theorem detLe_total (a b : ColorPatternDetection) :
    ((!DetBefore b a) || (!DetBefore a b)) = true := by
  cases ha : a.metrics.accepted <;> cases hb : b.metrics.accepted <;>
    simp [DetBefore, ha, hb, not_lt] <;> exact le_total _ _

/-- C4: in every `RunResult` returned by `Find`, all accepted detections
precede all rejected ones, and within each of the two partitions the scores
are non-increasing. -/
theorem detections_partitioned_and_sorted (cfg : ColorPatternConfig)
    (grid supportMask excludeMask : Finset (ℤ × ℤ))
    (centerMaskCount rows cols : ℕ) (contours : List RawContour) :
    (Find cfg grid supportMask excludeMask centerMaskCount rows cols contours).detections.Pairwise
      (fun a b =>
        (a.metrics.accepted = false → b.metrics.accepted = false) ∧
        (a.metrics.accepted = b.metrics.accepted → b.metrics.score ≤ a.metrics.score)) := by
  have hs : (Find cfg grid supportMask excludeMask centerMaskCount rows cols
      contours).detections.Pairwise (fun a b => (!DetBefore b a) = true) := by
    rw [Find_detections_eq]
    unfold SortDetections
    exact List.sorted_mergeSort (fun a b c => detLe_trans a b c) detLe_total _
  refine hs.imp ?_
  intro a b hab
  rw [detLe_iff] at hab
  refine ⟨fun hfa => ?_, hab.2⟩
  cases hb2 : b.metrics.accepted
  · rfl
  · exact absurd (hab.1 hb2) (by simp [hfa])

theorem if_swap_min (a b : ℤ) : (if b < a then b else a) = min a b := by
  split_ifs with h
  · exact (min_eq_right h.le).symm
  · exact (min_eq_left (not_lt.mp h)).symm

theorem if_swap_max (a b : ℤ) : (if b < a then a else b) = max a b := by
  split_ifs with h
  · exact (max_eq_left h.le).symm
  · exact (max_eq_right (not_lt.mp h)).symm

theorem foldl_or_any (l : List HueRange) (f : HueRange → Bool) (b : Bool) :
    l.foldl (fun acc r => acc || f r) b = (b || l.any f) := by
  induction l generalizing b with
  | nil => simp
  | cons x xs ih => simp [List.foldl_cons, List.any_cons, ih, Bool.or_assoc]

theorem and_or_distrib (a b s : Bool) : ((a && s) || (b && s)) = ((a || b) && s) := by
  cases a <;> cases b <;> cases s <;> rfl

theorem InRange3_factor (hLo hHi sLo sHi vLo vHi : ℤ) (p : HSVPixel) :
    InRange3 hLo hHi sLo sHi vLo vHi p =
      (decide (hLo ≤ p.h ∧ p.h ≤ hHi) &&
       (decide (sLo ≤ p.s ∧ p.s ≤ sHi) && decide (vLo ≤ p.v ∧ p.v ≤ vHi))) := by
  simp [InRange3, Bool.and_assoc]

theorem any_part_eq (l : List HueRange) (sLo sHi vLo vHi : ℤ) (p : HSVPixel) :
    (l.any fun r =>
      if r.minHue ≤ r.maxHue then InRange3 r.minHue r.maxHue sLo sHi vLo vHi p
      else InRange3 0 r.maxHue sLo sHi vLo vHi p ||
        InRange3 r.minHue 179 sLo sHi vLo vHi p) =
    ((l.any fun r => HueInSpec r p.h) &&
      (decide (sLo ≤ p.s ∧ p.s ≤ sHi) && decide (vLo ≤ p.v ∧ p.v ≤ vHi))) := by
  induction l with
  | nil => simp
  | cons x xs ih =>
    rw [List.any_cons, List.any_cons, ih]
    by_cases hx : x.minHue ≤ x.maxHue
    · simp only [hx, if_true, HueInSpec, InRange3_factor]
      rw [and_or_distrib]
    · simp only [hx, if_false, HueInSpec, InRange3_factor, Bool.decide_or]
      rw [and_or_distrib, and_or_distrib]

/-- C5: `BuildMask` marks a pixel foreground iff its hue lies in the union of
the stored `HueRange`s (a range with `minHue > maxHue` denoting the
wraparound union `[0,maxHue] ∪ [minHue,179]`) and its saturation and value
lie in their channel ranges; an empty hue-range set yields an all-background
mask; the saturation/value bounds are clamped to `[0,255]` and swapped if
reversed before masking. -/
theorem BuildMask_matches_spec (ranges : List HueRange)
    (satMin satMax valMin valMax : ℤ) (p : HSVPixel) :
    BuildMask ranges satMin satMax valMin valMax p =
      SpecMask ranges satMin satMax valMin valMax p := by
  unfold BuildMask SpecMask
  cases hemp : ranges.isEmpty with
  | true => simp [hemp]
  | false =>
    simp only [hemp, Bool.false_eq_true, if_false, Bool.not_false, Bool.true_and]
    simp only [if_swap_min, if_swap_max]
    simp only [foldl_or_any, Bool.false_or]
    rw [any_part_eq]
    rw [Bool.and_assoc]

theorem length_filter_eq_iff_all {α : Type} (l : List α) (p : α → Bool) :
    (l.filter p).length = l.length ↔ ∀ a ∈ l, p a := by
  constructor
  · intro h
    exact List.filter_eq_self.mp ((List.filter_sublist l).eq_of_length h)
  · intro h
    rw [List.filter_eq_self.mpr h]

/-- C10: `rawCandidateCount` counts every external contour, including
zero-measured-area ones, while the detections list keeps only contours with
positive measured area; hence every detection has `areaPx > 0`,
`rawCandidateCount ≥ detections.length`, and the two counts differ exactly
when zero-area contours are present. -/
theorem raw_count_vs_detections (cfg : ColorPatternConfig)
    (grid supportMask excludeMask : Finset (ℤ × ℤ))
    (centerMaskCount rows cols : ℕ) (contours : List RawContour)
    (hnn : ∀ c ∈ contours, 0 ≤ c.area) :
    (Find cfg grid supportMask excludeMask centerMaskCount rows cols contours).rawCandidateCount =
        contours.length ∧
    (∀ d ∈ (Find cfg grid supportMask excludeMask centerMaskCount rows cols contours).detections,
        0 < d.metrics.areaPx) ∧
    (Find cfg grid supportMask excludeMask centerMaskCount rows cols contours).detections.length ≤
      (Find cfg grid supportMask excludeMask centerMaskCount rows cols contours).rawCandidateCount ∧
    ((Find cfg grid supportMask excludeMask centerMaskCount rows cols contours).detections.length ≠
        (Find cfg grid supportMask excludeMask centerMaskCount rows cols contours).rawCandidateCount ↔
      ∃ c ∈ contours, c.area = 0) := by
  have hlen : (Find cfg grid supportMask excludeMask centerMaskCount rows cols
      contours).detections.length =
      (contours.filter fun c => !decide (c.area ≤ 0)).length := by
    rw [Find_detections_eq, (SortDetections_perm _).length_eq, List.length_map]
  refine ⟨rfl, ?_, ?_, ?_⟩
  · intro d hd
    obtain ⟨c, _, hca, rfl⟩ := mem_Find_detections hd
    exact not_le.mp hca
  · rw [hlen]
    exact List.length_filter_le _ _
  · rw [hlen]
    show (contours.filter fun c => !decide (c.area ≤ 0)).length ≠ contours.length ↔ _
    constructor
    · intro hne
      have h2 : ∃ c, c ∈ contours ∧ ¬((!decide (c.area ≤ 0)) = true) := by
        by_contra hno
        push_neg at hno
        exact hne ((length_filter_eq_iff_all _ _).mpr hno)
      rcases h2 with ⟨c, hc, hcb⟩
      have hle : c.area ≤ 0 := by simpa using hcb
      exact ⟨c, hc, le_antisymm hle (hnn c hc)⟩
    · rintro ⟨c, hc, hc0⟩ heq
      have hall := (length_filter_eq_iff_all _ _).mp heq
      have hbad : ¬(c.area ≤ 0) := by simpa using hall c hc
      exact hbad (le_of_eq hc0)

/-- Witness for C10 at a run with one positive-area and one zero-area
contour. -/
theorem raw_count_vs_detections_witness :
    (0 ≤ cSample.area ∧ 0 ≤ cZeroArea.area) ∧
    (Find cfgOff ∅ ∅ ∅ 0 1 1 [cSample, cZeroArea]).rawCandidateCount = 2 ∧
    ((Find cfgOff ∅ ∅ ∅ 0 1 1 [cSample, cZeroArea]).detections.length ≠
        (Find cfgOff ∅ ∅ ∅ 0 1 1 [cSample, cZeroArea]).rawCandidateCount ↔
      ∃ c ∈ ([cSample, cZeroArea] : List RawContour), c.area = 0) := by
  have hnn : ∀ c ∈ ([cSample, cZeroArea] : List RawContour), 0 ≤ c.area := by
    intro c hc
    fin_cases hc <;> norm_num [cSample, cZeroArea]
  have h := raw_count_vs_detections cfgOff ∅ ∅ ∅ 0 1 1 [cSample, cZeroArea] hnn
  exact ⟨⟨by norm_num [cSample], by norm_num [cZeroArea]⟩, h.1.trans rfl, h.2.2.2⟩

theorem FirstFailing_append (l1 l2 : List (Bool × String)) :
    FirstFailing (l1 ++ l2) = (FirstFailing l1 <|> FirstFailing l2) := by
  induction l1 with
  | nil => simp [FirstFailing]
  | cons x xs ih =>
    cases x with
    | mk ok msg => cases ok <;> simp [FirstFailing, ih]

theorem ValidateRange_eq (r : ChannelRange) (name : String) :
    ValidateRange r name =
      FirstFailing [(RangeWithinBounds r, name ++ " must be within [0,255]."),
        (RangeOrdered r, name ++ " must satisfy minValue <= maxValue.")] := by
  simp only [FirstFailing, RangeWithinBounds, RangeOrdered, decide_eq_true_eq]
  unfold ValidateRange
  split_ifs <;> first | rfl | (exfalso; omega)

theorem ValidateRange_none (r : ChannelRange) (name : String)
    (hw : RangeWithinBounds r = true) (ho : RangeOrdered r = true) :
    ValidateRange r name = none := by
  simp only [RangeWithinBounds, RangeOrdered, decide_eq_true_eq] at hw ho
  unfold ValidateRange
  split_ifs <;> first | rfl | (exfalso; omega)

theorem FirstFailing_nil : FirstFailing [] = none := rfl

theorem FirstFailing_cons (ok : Bool) (msg : String) (rest : List (Bool × String)) :
    FirstFailing ((ok, msg) :: rest) =
      ((if ok = true then none else some msg) <|> FirstFailing rest) := by
  cases ok <;> simp [FirstFailing]

theorem ite_bool_swap (b : Bool) (A B : Option String) :
    (if b = true then A else B) = (if b = false then B else A) := by
  cases b <;> simp

theorem ite_range_swap (r : ChannelRange) (A B : Option String) :
    (if r.minValue < 0 ∨ 255 < r.minValue ∨ r.maxValue < 0 ∨ 255 < r.maxValue
      then A else B) =
    (if 0 ≤ r.minValue ∧ r.minValue ≤ 255 ∧ 0 ≤ r.maxValue ∧ r.maxValue ≤ 255
      then B else A) := by
  split_ifs <;> first | rfl | (exfalso; omega)

theorem ite_lt_swap (x y : ℤ) (A B : Option String) :
    (if x < y then A else B) = (if y ≤ x then B else A) := by
  split_ifs <;> first | rfl | (exfalso; omega)

theorem ite_or_swap_rat (x : ℚ) (A B : Option String) :
    (if x < 0 ∨ 1 < x then A else B) = (if 0 ≤ x ∧ x ≤ 1 then B else A) := by
  by_cases h2 : 0 ≤ x ∧ x ≤ 1
  · rw [if_pos h2, if_neg]
    rintro (h | h) <;> linarith [h2.1, h2.2]
  · rw [if_neg h2, if_pos]
    by_contra hno
    push_neg at hno
    exact h2 ⟨hno.1, hno.2⟩

theorem ite_radius_swap (i o : ℤ) (A B : Option String) :
    (if i < 1 ∨ o ≤ i then A else B) = (if 1 ≤ i ∧ i < o then B else A) := by
  split_ifs <;> first | rfl | (exfalso; omega)

theorem nested_ite_split (W O : Prop) [Decidable W] [Decidable O] (m m' : String) :
    (if W then (if O then none else some m') else some m) =
    ((if W then none else some m) <|> ((if O then none else some m') <|> none)) := by
  split_ifs <;> simp

theorem option_orElse_assoc (a b c : Option String) :
    ((a <|> b) <|> c) = (a <|> (b <|> c)) := by
  cases a <;> simp

theorem option_orElse_none (a : Option String) : (a <|> none) = a := by
  cases a <;> simp

theorem ite_and_orElse (P Q : Prop) [Decidable P] [Decidable Q] (m : String)
    (rest : Option String) :
    ((if P ∧ Q then none else some m) <|> rest) =
    ((if P then none else some m) <|> ((if Q then none else some m) <|> rest)) := by
  split_ifs <;> simp_all

/-- C6: `ValidateConfig` is a pure predicate that checks the specification's
rules in their stated order and reports the first failing rule (it equals
`FirstFailing` over the spec's ordered rule list); in particular, with the
earlier rules passing, `maxArea < minArea` fails with the message naming
`shape.maxArea`, and `outerRadiusPercent ≤ innerRadiusPercent` with context
enabled fails with the context-radius message. -/
theorem validateConfig_follows_spec (cfg : ColorPatternConfig) :
    ValidateConfig cfg = FirstFailing (SpecRules cfg) ∧
    (cfg.centerColor.hues.isEmpty = false →
      RangeWithinBounds cfg.centerColor.satRange = true →
      RangeOrdered cfg.centerColor.satRange = true →
      RangeWithinBounds cfg.centerColor.valRange = true →
      RangeOrdered cfg.centerColor.valRange = true →
      1 ≤ cfg.shape.minArea →
      cfg.shape.maxArea < cfg.shape.minArea →
      ValidateConfig cfg = some "shape.maxArea must be >= shape.minArea.") ∧
    (cfg.centerColor.hues.isEmpty = false →
      RangeWithinBounds cfg.centerColor.satRange = true →
      RangeOrdered cfg.centerColor.satRange = true →
      RangeWithinBounds cfg.centerColor.valRange = true →
      RangeOrdered cfg.centerColor.valRange = true →
      1 ≤ cfg.shape.minArea →
      cfg.shape.minArea ≤ cfg.shape.maxArea →
      0 ≤ cfg.shape.minCircularity → cfg.shape.minCircularity ≤ 1 →
      0 ≤ cfg.shape.minFillRatio → cfg.shape.minFillRatio ≤ 1 →
      cfg.context.enabled = true →
      cfg.context.outerRadiusPercent ≤ cfg.context.innerRadiusPercent →
      ValidateConfig cfg =
        some "context ring radius percents must satisfy: 1 <= inner < outer.") := by
  refine ⟨?_, ?_, ?_⟩
  · unfold ValidateConfig SpecRules ValidateRange
    rw [FirstFailing_append]
    cases he : cfg.context.enabled
    · simp only [he, Bool.false_eq_true, if_false, ite_false, List.cons_append, List.nil_append,
        FirstFailing_cons, FirstFailing_nil, RangeWithinBounds, RangeOrdered,
        decide_eq_true_eq, Bool.not_eq_true', ite_bool_swap, ite_range_swap, ite_lt_swap,
        ite_or_swap_rat, ite_radius_swap, nested_ite_split, option_orElse_assoc,
        option_orElse_none, ite_and_orElse, Option.none_orElse, Option.some_orElse]
      rfl
    · simp only [he, eq_self_iff_true, if_true, ite_true, List.cons_append, List.nil_append,
        FirstFailing_cons, FirstFailing_nil, RangeWithinBounds, RangeOrdered,
        decide_eq_true_eq, Bool.not_eq_true', ite_bool_swap, ite_range_swap, ite_lt_swap,
        ite_or_swap_rat, ite_radius_swap, nested_ite_split, option_orElse_assoc,
        option_orElse_none, ite_and_orElse, Option.none_orElse, Option.some_orElse]
      rfl
  · intro h1 h2 h3 h4 h5 h6 hmax
    unfold ValidateConfig
    rw [ValidateRange_none _ _ h2 h3, ValidateRange_none _ _ h4 h5]
    rw [if_neg (by simp [h1]), if_neg (by omega), if_pos hmax]
    rfl
  · intro h1 h2 h3 h4 h5 h6 hmax hc1 hc2 hf1 hf2 hen houter
    unfold ValidateConfig
    rw [ValidateRange_none _ _ h2 h3, ValidateRange_none _ _ h4 h5]
    rw [if_neg (by simp [h1]), if_neg (by omega), if_neg (by omega),
      if_neg (by rintro (h | h) <;> linarith),
      if_neg (by rintro (h | h) <;> linarith),
      if_pos hen, if_pos (Or.inr houter)]
    rfl

/-- Witness for C6 at two concrete invalid configurations. -/
theorem validateConfig_follows_spec_witness :
    (cfgBadArea.shape.maxArea < cfgBadArea.shape.minArea ∧
      ValidateConfig cfgBadArea = some "shape.maxArea must be >= shape.minArea.") ∧
    (cfgBadRadius.context.enabled = true ∧
      cfgBadRadius.context.outerRadiusPercent ≤ cfgBadRadius.context.innerRadiusPercent ∧
      ValidateConfig cfgBadRadius =
        some "context ring radius percents must satisfy: 1 <= inner < outer.") := by
  refine ⟨⟨by decide, ?_⟩, rfl, by decide, ?_⟩
  · exact (validateConfig_follows_spec cfgBadArea).2.1 rfl (by decide) (by decide)
      (by decide) (by decide) (by decide) (by decide)
  · exact (validateConfig_follows_spec cfgBadRadius).2.2 rfl (by decide) (by decide)
      (by decide) (by decide) (by decide) (by decide) (by decide) (by decide)
      (by decide) (by decide) rfl (by decide)

end ChromaCore
